import Mathlib

/-!
Shallow embedding of the task-scheduling subsystem of the repository
(`shadow_core/scheduler.py` and `shadow_core/multilingual_reminder.py`).

Strings are modelled as `List Char`, unix timestamps as `Int` (the claims
only exercise integral times), confidences as `ℚ`.  Fallible Python code
(`try`/`except`) is modelled with `Except Unit`; code that catches an
exception and returns a value is a total function.
-/

set_option autoImplicit false

namespace ShadowAI

/-- `TaskType` enum from `scheduler.py`. -/
inductive TaskType where
  | reminder
  | timer
  | alarm
  | scheduledTask
deriving DecidableEq, Repr

/-- `TaskStatus` enum from `scheduler.py`. -/
inductive TaskStatus where
  | pending
  | active
  | completed
  | cancelled
  | failed
deriving DecidableEq, Repr

/-- The `ScheduledTask` dataclass.  `id` is `Optional[int]` in the source:
tasks are created with `id=None` and the id is only present on rows read
back from the database. -/
structure ScheduledTask where
  id : Option Nat
  task_type : TaskType
  title : List Char
  description : List Char
  scheduled_time : Int
  created_time : Int
  status : TaskStatus
  user_id : List Char
  recurrence : Option (List Char)
  metadata : Option (List Char)
deriving DecidableEq, Repr

/-- A persisted row of the sqlite `tasks` table.  A stored row always has a
concrete integer primary key. -/
structure TaskRow where
  id : Nat
  task_type : TaskType
  title : List Char
  description : List Char
  scheduled_time : Int
  created_time : Int
  status : TaskStatus
  user_id : List Char
  recurrence : Option (List Char)
  metadata : Option (List Char)
deriving DecidableEq, Repr

/-- The sqlite database: rows in rowid (insertion) order plus the
`AUTOINCREMENT` counter for the next primary key. -/
structure DB where
  rows : List TaskRow
  nextId : Nat
deriving DecidableEq, Repr

def emptyDB : DB := ⟨[], 1⟩

/-- The row the `INSERT INTO tasks ...` statement of `_save_task` produces
for a task, given the autoincrement id. -/
def rowOf (i : Nat) (t : ScheduledTask) : TaskRow :=
  { id := i
    task_type := t.task_type
    title := t.title
    description := t.description
    scheduled_time := t.scheduled_time
    created_time := t.created_time
    status := t.status
    user_id := t.user_id
    recurrence := t.recurrence
    metadata := t.metadata }

/-- A store-level I/O error (sqlite exception).  The embedding makes the
success of the durable write an explicit parameter `writeOk`. -/
def dbInsert (writeOk : Bool) (db : DB) (t : ScheduledTask) :
    Except Unit (DB × Nat) :=
  if writeOk then
    .ok (⟨db.rows ++ [rowOf db.nextId t], db.nextId + 1⟩, db.nextId)
  else
    .error ()

/-- `_save_task`: insert the task; `task_id = cursor.lastrowid` is returned.
The whole body is wrapped in `try/except`: any write failure is logged and
`-1` is returned as a normal value, so the function is total. -/
def saveTask (writeOk : Bool) (db : DB) (t : ScheduledTask) : DB × Int :=
  match dbInsert writeOk db t with
  | .ok (db', tid) => (db', (tid : Int))
  | .error _ => (db, -1)

/-- SQL equality of the bound python value against the `id` column.  Binding
python `None` yields SQL `NULL`, and `id = NULL` is never true, so a `None`
id matches no row. -/
def sqlIdEq (bound : Option Nat) (rowId : Nat) : Bool :=
  match bound with
  | none => false
  | some i => i == rowId

/-- The effect of the `UPDATE` statement on one row. -/
def updRow (taskId : Option Nat) (st : TaskStatus) (r : TaskRow) : TaskRow :=
  if sqlIdEq taskId r.id then { r with status := st } else r

/-- `_update_task_status`: `UPDATE tasks SET status = ? WHERE id = ?`.  The
`try/except` around it only logs; the function always returns normally. -/
def updateTaskStatus (db : DB) (taskId : Option Nat) (st : TaskStatus) : DB :=
  { db with rows := db.rows.map (updRow taskId st) }

/-- The `ScheduledTask` object reconstructed from a stored row by
`_get_pending_tasks`/`get_upcoming_tasks`. -/
def taskOfRow (r : TaskRow) : ScheduledTask :=
  { id := some r.id
    task_type := r.task_type
    title := r.title
    description := r.description
    scheduled_time := r.scheduled_time
    created_time := r.created_time
    status := r.status
    user_id := r.user_id
    recurrence := r.recurrence
    metadata := r.metadata }

/-- `ORDER BY scheduled_time ASC` on rows in rowid scan order (sqlite scans
the table in rowid order; a stable sort reproduces its output). -/
def sortBySched (rs : List TaskRow) : List TaskRow :=
  rs.insertionSort (fun a b => a.scheduled_time ≤ b.scheduled_time)

/-- `_get_pending_tasks`: pending rows with
`scheduled_time <= time.time() + 60`, ascending. -/
def getPendingTasks (db : DB) (now : Int) : List ScheduledTask :=
  (sortBySched (db.rows.filter fun r =>
    r.status == TaskStatus.pending && r.scheduled_time ≤ now + 60)).map taskOfRow

/-- `get_upcoming_tasks`: pending and active rows with
`scheduled_time >= time.time()`, ascending, `LIMIT limit`. -/
def getUpcomingTasks (db : DB) (now : Int) (limit : Nat) : List ScheduledTask :=
  ((sortBySched (db.rows.filter fun r =>
    (r.status == TaskStatus.pending || r.status == TaskStatus.active)
      && now ≤ r.scheduled_time)).take limit).map taskOfRow

/-- Abbreviation for string literals in the embedding. -/
def strL (s : String) : List Char := s.toList

/-- Truthiness of `task.recurrence and task.status != TaskStatus.CANCELLED`
in `_execute_task` (python `None` and `""` are falsy). -/
def recurTruthy (t : ScheduledTask) : Bool :=
  (match t.recurrence with
   | none => false
   | some r => !r.isEmpty) && t.status != TaskStatus.cancelled

/-- The recurrence offset `_handle_recurrence` computes: 24 h for `daily`,
7 days for `weekly`, an approximate 30 days for `monthly`; any other value
makes the function return without saving. -/
def recurrenceDelta (r : Option (List Char)) : Option Int :=
  match r with
  | some s =>
      if s = strL "daily" then some (24 * 60 * 60)
      else if s = strL "weekly" then some (7 * 24 * 60 * 60)
      else if s = strL "monthly" then some (30 * 24 * 60 * 60)
      else none
  | none => none

/-- `_handle_recurrence`: on a recognised recurrence, build a fresh task for
the next occurrence (same type/title/description/user/recurrence/metadata,
`id=None`, status Pending, `created_time=time.time()`) and `_save_task` it. -/
def handleRecurrence (writeOk : Bool) (db : DB) (t : ScheduledTask)
    (now : Int) : DB :=
  match recurrenceDelta t.recurrence with
  | none => db
  | some d =>
      (saveTask writeOk db
        { id := none
          task_type := t.task_type
          title := t.title
          description := t.description
          scheduled_time := t.scheduled_time + d
          created_time := now
          status := TaskStatus.pending
          user_id := t.user_id
          recurrence := t.recurrence
          metadata := t.metadata }).1

/-- `_execute_task`: set status Active (keyed on the in-memory object's
`task.id`), dispatch the callback with the task, then either handle
recurrence or set status Completed.  The dispatched task is recorded in the
returned list (the registered handler is invoked once per element). -/
def executeTask (writeOk : Bool) (db : DB) (t : ScheduledTask) (now : Int) :
    DB × List ScheduledTask :=
  let db1 := updateTaskStatus db t.id TaskStatus.active
  let db2 :=
    if recurTruthy t then handleRecurrence writeOk db1 t now
    else updateTaskStatus db1 t.id TaskStatus.completed
  (db2, [t])

/-- `_check_pending_tasks`: snapshot the due-soon pending rows, read the
clock once, and execute every task whose `scheduled_time` has passed. -/
def checkPendingTasks (writeOk : Bool) (db : DB) (now : Int) :
    DB × List ScheduledTask :=
  (getPendingTasks db now).foldl
    (fun acc t =>
      if t.scheduled_time ≤ now then
        let r := executeTask writeOk acc.1 t now
        (r.1, acc.2 ++ r.2)
      else acc)
    (db, [])

/-- In-memory scheduler state: the store plus the key set of the
`active_tasks` dict (`task.id` keys of registered deferred timers). -/
structure SchedState where
  db : DB
  activeKeys : List (Option Nat)
deriving DecidableEq, Repr

def emptySched : SchedState := ⟨emptyDB, []⟩

/-- Dict assignment `self.active_tasks[k] = ...`: the key set gains `k`. -/
def insertKey (k : Option Nat) (ks : List (Option Nat)) : List (Option Nat) :=
  if k ∈ ks then ks else ks ++ [k]

/-- `del self.active_tasks[k]`. -/
def removeKey (k : Option Nat) (ks : List (Option Nat)) : List (Option Nat) :=
  ks.filter (· ≠ k)

/-- `_schedule_task_execution`: `delay = max(0, scheduled_time - now)`; when
`delay > 0` a deferred timer coroutine is registered under key `task.id`. -/
def scheduleTaskExecution (st : SchedState) (t : ScheduledTask) (now : Int) :
    SchedState :=
  let delay := max 0 (t.scheduled_time - now)
  if delay > 0 then { st with activeKeys := insertKey t.id st.activeKeys }
  else st

/-- `_create_task` (the body of `schedule_task`): build the task with
`id=None`, `_save_task` it, register the deferred timer, and return the id
obtained from the store.  The in-memory task object (the one the deferred
timer closure captures) is returned as well. -/
def createTask (writeOk : Bool) (st : SchedState) (ty : TaskType)
    (title description : List Char) (sched : Int)
    (recurrence : Option (List Char)) (now : Int) :
    SchedState × Int × ScheduledTask :=
  let t : ScheduledTask :=
    { id := none
      task_type := ty
      title := title
      description := description
      scheduled_time := sched
      created_time := now
      status := TaskStatus.pending
      user_id := strL "default"
      recurrence := recurrence
      metadata := none }
  let r := saveTask writeOk st.db t
  let st' := scheduleTaskExecution { st with db := r.1 } t now
  (st', r.2, t)

/-- `cancel_task`: if `task_id` is a key of `active_tasks`, cancel and drop
that timer; then set the row's status to Cancelled and return `True`
(the `except` branch is unreachable: nothing in the body raises). -/
def cancelTask (st : SchedState) (taskId : Nat) : SchedState × Bool :=
  let ks :=
    if (some taskId) ∈ st.activeKeys then removeKey (some taskId) st.activeKeys
    else st.activeKeys
  (⟨updateTaskStatus st.db (some taskId) TaskStatus.cancelled, ks⟩, true)

/-! ### `multilingual_reminder.py`: character classes and the regexes used -/

/-- Python regex `\s` (ASCII portion; the inputs under study are ASCII or
caseless scripts). -/
def isWs (c : Char) : Bool :=
  c == ' ' || c == '\t' || c == '\n' || c == '\r' ||
    c == Char.ofNat 11 || c == Char.ofNat 12

/-- Python regex `\d` (ASCII digits). -/
def isDigitCh (c : Char) : Bool :=
  '0' ≤ c && c ≤ '9'

def natOfDigits (ds : List Char) : Nat :=
  ds.foldl (fun n c => n * 10 + (c.toNat - '0'.toNat)) 0

/-- The shapes of regex used by the parser's per-language tables:
`(\d+)\s*(u1|u2|…)` for the minutes/hours/days rows, `(\d{1,2}):(\d{2})`
for the clock-time row, and alternations of plain literals for the rest. -/
inductive Pat where
  | numUnit (units : List (List Char))
  | clockTime
  | lits (alts : List (List Char))
deriving DecidableEq, Repr

/-- First alternative (in order) matching at the start of `cs` — python
alternation tries alternatives left to right. -/
def firstAltAt (alts : List (List Char)) (cs : List Char) : Option (List Char) :=
  alts.find? (fun a => a.isPrefixOf cs)

/-- `(\d{1,2}):(\d{2})` anchored with both digits consumed by the greedy
`\d{1,2}`. -/
def matchClock2 (cs : List Char) : Option (List Char) :=
  match cs with
  | d1 :: d2 :: ':' :: m1 :: m2 :: _ =>
      if isDigitCh d1 && isDigitCh d2 && isDigitCh m1 && isDigitCh m2 then
        some [d1, d2, ':', m1, m2]
      else none
  | _ => none

/-- `(\d{1,2}):(\d{2})` anchored with one digit consumed (the backtracking
case). -/
def matchClock1 (cs : List Char) : Option (List Char) :=
  match cs with
  | d1 :: ':' :: m1 :: m2 :: _ =>
      if isDigitCh d1 && isDigitCh m1 && isDigitCh m2 then
        some [d1, ':', m1, m2]
      else none
  | _ => none

/-- Anchored match of a pattern at the start of `cs`.  Returns the whole
match and, for `numUnit`, the numeric first group.  Maximal munch on `\d+`
and `\s*` agrees with python's backtracking here because no unit literal
starts with a digit or whitespace. -/
def matchAt (p : Pat) (cs : List Char) : Option (List Char × Option Nat) :=
  match p with
  | .lits alts => (firstAltAt alts cs).map (fun a => (a, none))
  | .clockTime =>
      (match matchClock2 cs with
       | some m => some m
       | none => matchClock1 cs).map (fun m => (m, none))
  | .numUnit units =>
      let ds := cs.takeWhile isDigitCh
      if ds.isEmpty then none
      else
        let rest := cs.dropWhile isDigitCh
        let ws := rest.takeWhile isWs
        match firstAltAt units (rest.dropWhile isWs) with
        | some u => some (ds ++ ws ++ u, some (natOfDigits ds))
        | none => none

/-- `re.search`: leftmost match. -/
def searchPat (p : Pat) (cs : List Char) : Option (List Char × Option Nat) :=
  match cs with
  | [] => none
  | _ :: rest =>
      match matchAt p cs with
      | some r => some r
      | none => searchPat p rest

/-- `re.finditer` worker: every step consumes at least one character, so
the input length is enough fuel. -/
def findIterAux (p : Pat) : Nat → List Char → List (List Char)
  | 0, _ => []
  | _ + 1, [] => []
  | fuel + 1, c :: rest =>
      match matchAt p (c :: rest) with
      | some r => r.1 :: findIterAux p fuel (rest.drop (r.1.length - 1))
      | none => findIterAux p fuel rest

/-- `re.finditer`: the full-match strings of the non-overlapping matches,
left to right (all matches of these patterns are non-empty). -/
def findIter (p : Pat) (cs : List Char) : List (List Char) :=
  findIterAux p cs.length cs

/-- `_extract_pattern`: `int(match.group(1))` or `0` when there is no
match. -/
def extractPattern (text : List Char) (units : List (List Char)) : Nat :=
  match searchPat (Pat.numUnit units) text with
  | some (_, some n) => n
  | _ => 0

/-- One per-language entry of `self.time_patterns` (the keys appear in the
dict's insertion order: minutes, hours, days, time, am_pm, tomorrow, today,
now). -/
structure PatTable where
  minutes : List (List Char)
  hours : List (List Char)
  days : List (List Char)
  am_pm : List (List Char)
  tomorrow : List (List Char)
  today : List (List Char)
  nowWords : List (List Char)
deriving DecidableEq, Repr

/-- `patterns.values()` in dict order; `time` is the fixed clock regex. -/
def valuesList (t : PatTable) : List Pat :=
  [Pat.numUnit t.minutes, Pat.numUnit t.hours, Pat.numUnit t.days,
   Pat.clockTime, Pat.lits t.am_pm, Pat.lits t.tomorrow, Pat.lits t.today,
   Pat.lits t.nowWords]

def enTable : PatTable :=
  { minutes := [strL "minute", strL "min"]
    hours := [strL "hour", strL "hr"]
    days := [strL "day"]
    am_pm := [strL "am", strL "pm", strL "morning", strL "evening"]
    tomorrow := [strL "tomorrow"]
    today := [strL "today"]
    nowWords := [strL "now"] }

def urTable : PatTable :=
  { minutes := [strL "منٹ", strL "مِنِٹ"]
    hours := [strL "گھنٹے", strL "گھنٹہ", strL "آور"]
    days := [strL "دن", strL "ڈے"]
    am_pm := [strL "صبح", strL "شام", strL "رات"]
    tomorrow := [strL "کل"]
    today := [strL "آج"]
    nowWords := [strL "ابھی", strL "اب"] }

def psTable : PatTable :=
  { minutes := [strL "دقيقې", strL "مينټ"]
    hours := [strL "ساعت", strL "گھنٹے"]
    days := [strL "ورځې", strL "ورځ"]
    am_pm := [strL "سهار", strL "ماښام", strL "شپه"]
    tomorrow := [strL "سبا"]
    today := [strL "نن"]
    nowWords := [strL "اوس", strL "همالہ"] }

/-- The language argument; `other` stands for any unsupported code. -/
inductive Lang where
  | en
  | ur
  | ps
  | other
deriving DecidableEq, Repr

/-- `self.time_patterns.get(language, self.time_patterns['ur'])`. -/
def tableFor (l : Lang) : PatTable :=
  match l with
  | .en => enTable
  | .ur => urTable
  | .ps => psTable
  | .other => urTable

/-! ### Time calculation -/

/-- `datetime.now()` as the embedding sees it: the current timestamp and
today's midnight (so `now.replace(hour=h, minute=m, second=0,
microsecond=0)` is `midnight + 3600*h + 60*m`).  A well-formed clock
satisfies `midnight ≤ ts < midnight + 86400`. -/
structure Clock where
  ts : Int
  midnight : Int
deriving DecidableEq, Repr

/-- The dict handed to `_calculate_reminder_time` (`none` = key absent,
`data.get` then returns python `None`). -/
structure CalcData where
  relative_minutes : Option Int
  relative_hours : Option Int
  relative_days : Option Int
  time : Option (List Char)
deriving DecidableEq, Repr

/-- Python `int(str)`: optional surrounding whitespace, optional sign,
at least one digit; anything else raises `ValueError`. -/
def parseIntPy (cs : List Char) : Except Unit Int :=
  let core := ((cs.dropWhile isWs).reverse.dropWhile isWs).reverse
  let signed : Bool × List Char :=
    match core with
    | '-' :: ds => (true, ds)
    | '+' :: ds => (false, ds)
    | ds => (false, ds)
  if signed.2.isEmpty || !(signed.2.all isDigitCh) then .error ()
  else .ok (if signed.1 then -(natOfDigits signed.2 : Int) else (natOfDigits signed.2 : Int))

/-- `_calculate_reminder_time`.  Relative offsets (python-truthy, i.e.
non-zero) win; otherwise a non-empty `time` string containing `:` is split
into `hour:minute` and mapped onto today (tomorrow if already past) —
a malformed split or an out-of-range component raises `ValueError`
(`Except.error`); otherwise the default is one hour from now. -/
def calcReminderTime (d : CalcData) (c : Clock) : Except Unit Int :=
  if d.relative_minutes.getD 0 != 0 || d.relative_hours.getD 0 != 0 ||
      d.relative_days.getD 0 != 0 then
    .ok (c.ts + 60 * d.relative_minutes.getD 0 + 3600 * d.relative_hours.getD 0
      + 86400 * d.relative_days.getD 0)
  else
    match d.time with
    | some ts =>
        if ts.isEmpty then .ok (c.ts + 3600)
        else if ts.contains ':' then
          match ts.splitOn ':' with
          | [hs, ms] =>
              match parseIntPy hs, parseIntPy ms with
              | .ok h, .ok m =>
                  if 0 ≤ h && h ≤ 23 && 0 ≤ m && m ≤ 59 then
                    .ok
                      (if c.midnight + 3600 * h + 60 * m < c.ts then
                        c.midnight + 3600 * h + 60 * m + 86400
                      else c.midnight + 3600 * h + 60 * m)
                  else .error ()
              | _, _ => .error ()
          | _ => .error ()
        else .ok (c.ts + 3600)
    | none => .ok (c.ts + 3600)

/-! ### Message extraction -/

/-- Python `str.replace(needle, '')`: remove all non-overlapping
occurrences, left to right. -/
def replaceAllAux : Nat → List Char → List Char → List Char
  | 0, cs, _ => cs
  | _ + 1, [], _ => []
  | fuel + 1, c :: rest, needle =>
      if !needle.isEmpty && needle.isPrefixOf (c :: rest) then
        replaceAllAux fuel ((c :: rest).drop needle.length) needle
      else c :: replaceAllAux fuel rest needle

def replaceAll (cs needle : List Char) : List Char :=
  replaceAllAux cs.length cs needle

/-- `re.sub(r'\s+', ' ', message)`: each maximal whitespace run becomes a
single space. -/
def collapseWsAux : List Char → Bool → List Char
  | [], _ => []
  | c :: rest, prevWs =>
      if isWs c then
        if prevWs then collapseWsAux rest true
        else ' ' :: collapseWsAux rest true
      else c :: collapseWsAux rest false

def collapseWs (cs : List Char) : List Char :=
  collapseWsAux cs false

/-- Python `str.strip()`. -/
def stripWs (cs : List Char) : List Char :=
  ((cs.dropWhile isWs).reverse.dropWhile isWs).reverse

/-- The hard-coded trigger words removed by `_extract_reminder_message`. -/
def reminderWords : List (List Char) :=
  [strL "remind", strL "remember", strL "alert", strL "یاد", strL "یادونه"]

/-- `_extract_reminder_message`: collect every full match of every pattern
over the original text, delete those phrases, collapse whitespace, strip,
delete the trigger words, and fall back to `"Reminder"` when empty. -/
def extractReminderMessage (text : List Char) (tbl : PatTable) : List Char :=
  let phrases := (valuesList tbl).foldl (fun acc p => acc ++ findIter p text) []
  let msg := phrases.foldl replaceAll text
  let msg := stripWs (collapseWs msg)
  let msg := reminderWords.foldl replaceAll msg
  let msg := stripWs msg
  if msg.isEmpty then strL "Reminder" else msg

/-! ### The parse result and the three tiers -/

/-- The dict `parse_reminder` returns (all tiers produce these keys;
`specific_time`/`specific_date` are `none` where a tier omits the key). -/
structure ParsedReminder where
  success : Bool
  message : List Char
  scheduled_time : Int
  relative_minutes : Int
  relative_hours : Int
  relative_days : Int
  specific_time : Option (List Char)
  specific_date : Option (List Char)
  confidence : ℚ
  reasoning : List Char
  original_text : List Char
deriving DecidableEq, Repr

/-- `_create_fallback_reminder`: one hour from now, confidence 0.3. -/
def fallbackReminder (text : List Char) (c : Clock) : ParsedReminder :=
  { success := true
    message := text
    scheduled_time := c.ts + 3600
    relative_minutes := 0
    relative_hours := 1
    relative_days := 0
    specific_time := none
    specific_date := none
    confidence := 3 / 10
    reasoning := strL "Fallback reminder"
    original_text := text }

/-- The structured JSON object decoded from the AI tier's response text
(`none` = key absent from the object). -/
structure AIData where
  message : Option (List Char)
  time : Option (List Char)
  date : Option (List Char)
  relative_minutes : Option Int
  relative_hours : Option Int
  relative_days : Option Int
  confidence : Option ℚ
  reasoning : Option (List Char)
deriving DecidableEq, Repr

/-- `_parse_ai_reminder_response` once a JSON object has been decoded:
compute the reminder time (an exception there falls back), then pass the
AI's fields through with the `data.get` defaults — nothing clamps
`confidence` or checks `reasoning`. -/
def parseAIResponse (d : AIData) (text : List Char) (c : Clock) :
    ParsedReminder :=
  match calcReminderTime
      ⟨d.relative_minutes, d.relative_hours, d.relative_days, d.time⟩ c with
  | .error _ => fallbackReminder text c
  | .ok t =>
      { success := true
        message := d.message.getD (strL "Reminder")
        scheduled_time := t
        relative_minutes := d.relative_minutes.getD 0
        relative_hours := d.relative_hours.getD 0
        relative_days := d.relative_days.getD 0
        specific_time := d.time
        specific_date := d.date
        confidence := d.confidence.getD (1 / 2)
        reasoning := d.reasoning.getD (strL "AI parsed reminder")
        original_text := text }

/-- The values `_pattern_parse_reminder` extracts and hands to
`_calculate_reminder_time`: relative offsets matched against the lowered
text, the clock-time match against the original text. -/
def patternData (text : List Char) (lang : Lang) : CalcData :=
  let tbl := tableFor lang
  let textLower := text.map Char.toLower
  ⟨some (extractPattern textLower tbl.minutes : Int),
   some (extractPattern textLower tbl.hours : Int),
   some (extractPattern textLower tbl.days : Int),
   (searchPat Pat.clockTime text).map (·.1)⟩

/-- `_pattern_parse_reminder`: extract the offsets, compute the reminder
time (this can raise, e.g. on an out-of-range `45:99` — the exception
escapes to `parse_reminder`'s handler), extract the message, confidence
0.6.  The returned relative/specific fields are the same extracted values
handed to the calculation. -/
def patternParseReminder (text : List Char) (lang : Lang) (c : Clock) :
    Except Unit ParsedReminder :=
  let d := patternData text lang
  match calcReminderTime d c with
  | .error e => .error e
  | .ok t =>
      .ok
        { success := true
          message := extractReminderMessage text (tableFor lang)
          scheduled_time := t
          relative_minutes := d.relative_minutes.getD 0
          relative_hours := d.relative_hours.getD 0
          relative_days := d.relative_days.getD 0
          specific_time := d.time
          specific_date := none
          confidence := 3 / 5
          reasoning := strL "Pattern-based parsing"
          original_text := text }

/-- Outcome of the AI tier as seen by `parse_reminder`:
`fail` — `brain.ask` raised or timed out, `_ai_parse_reminder` returns
`None` and the pattern tier runs; `noJson` — the response carried no
decodable JSON object, `_parse_ai_reminder_response` returns the fallback
dict (which is truthy, so it is returned as-is); `json d` — an object was
decoded. -/
inductive AIOutcome where
  | fail
  | noJson
  | json (d : AIData)
deriving DecidableEq, Repr

/-- `parse_reminder`: the AI tier first, the pattern tier as fallback, and
a `try/except` around everything that degrades to
`_create_fallback_reminder`.  Total: the parser never raises. -/
def parseReminder (ai : AIOutcome) (text : List Char) (lang : Lang)
    (c : Clock) : ParsedReminder :=
  match ai with
  | .fail =>
      match patternParseReminder text lang c with
      | .ok r => r
      | .error _ => fallbackReminder text c
  | .noJson => fallbackReminder text c
  | .json d => parseAIResponse d text c

/-! ### Concrete instances used by the verification -/

/-- The C1 scenario: `schedule_task("Call mom", "", now+300, Reminder)` with
`now = 1000`, on a fresh scheduler. -/
def scenarioC1create : SchedState × Int × ScheduledTask :=
  createTask true emptySched TaskType.reminder (strL "Call mom") (strL "")
    1300 none 1000

/-- The deferred timer firing at `t = 1300` with the in-memory task object
captured by `execute_with_delay`. -/
def scenarioC1timer : DB × List ScheduledTask :=
  executeTask true scenarioC1create.1.db scenarioC1create.2.2 1300

/-- The next poll-loop iteration after the due time (`t = 1330`). -/
def scenarioC1poll : DB × List ScheduledTask :=
  checkPendingTasks true scenarioC1timer.1 1330

def taskC3 : ScheduledTask :=
  ⟨none, TaskType.reminder, strL "t", strL "", 100, 50, TaskStatus.pending,
   strL "default", none, none⟩

/-- A store holding a single already-Completed (terminal) task. -/
def stC4 : SchedState :=
  ⟨⟨[⟨1, TaskType.reminder, strL "t", strL "", 100, 50, TaskStatus.completed,
      strL "default", none, none⟩], 2⟩, []⟩

def rowC4 : TaskRow :=
  ⟨1, TaskType.reminder, strL "t", strL "", 100, 50, TaskStatus.cancelled,
   strL "default", none, none⟩

/-- A daily-recurring task. -/
def taskC5 : ScheduledTask :=
  ⟨some 1, TaskType.reminder, strL "t", strL "", 100, 50, TaskStatus.pending,
   strL "default", some (strL "daily"), none⟩

/-- The row `_handle_recurrence` is expected to persist: a fresh Pending
task with the store's next id, the same type/title/description/user/
recurrence/metadata, and the old `scheduled_time` shifted by `d`. -/
def nextRowOf (db : DB) (t : ScheduledTask) (now : Int) (d : Int) : TaskRow :=
  { id := db.nextId
    task_type := t.task_type
    title := t.title
    description := t.description
    scheduled_time := t.scheduled_time + d
    created_time := now
    status := TaskStatus.pending
    user_id := t.user_id
    recurrence := t.recurrence
    metadata := t.metadata }

/-- A store holding one pending task with id 1. -/
def dbC7 : DB :=
  ⟨[⟨1, TaskType.reminder, strL "a", strL "", 100, 50, TaskStatus.pending,
     strL "default", none, none⟩], 2⟩

/-- A store holding one pending task due at time 100. -/
def dbC9 : DB :=
  ⟨[⟨1, TaskType.reminder, strL "a", strL "", 100, 50, TaskStatus.pending,
     strL "default", none, none⟩], 2⟩

/-- An AI response whose structured data carries a negative relative
offset. -/
def aiC2 : AIData :=
  ⟨some (strL "m"), none, none, some (-5), none, none, none, none⟩

/-- An AI response carrying an out-of-range confidence and an empty
reasoning string. -/
def aiC6 : AIData :=
  ⟨some (strL "m"), none, none, none, none, none, some 2, some []⟩

/-- The relative offsets the AI tier supplies are all non-negative (the
condition under which the amended C2 bound holds). -/
def aiOffsetsNonneg : AIOutcome → Bool
  | .json d =>
      decide (0 ≤ d.relative_minutes.getD 0) &&
      decide (0 ≤ d.relative_hours.getD 0) &&
      decide (0 ≤ d.relative_days.getD 0)
  | _ => true

/-- The AI tier's explicit confidence lies in `[0,1]` and its explicit
reasoning is non-empty (the condition under which the amended C6 contract
holds; the code nowhere enforces it). -/
def aiContractOk : AIOutcome → Bool
  | .json d =>
      (match d.confidence with
       | some q => decide (0 ≤ q) && decide (q ≤ 1)
       | none => true) &&
      (match d.reasoning with
       | some s => !s.isEmpty
       | none => true)
  | _ => true

/-! ### Shared lemmas -/

theorem updRow_skip (tid : Option Nat) (st : TaskStatus) (r : TaskRow)
    (h : sqlIdEq tid r.id = false) : updRow tid st r = r := by
  simp [updRow, h]

theorem updRow_idem (tid : Option Nat) (st : TaskStatus) (r : TaskRow) :
    updRow tid st (updRow tid st r) = updRow tid st r := by
  by_cases h : sqlIdEq tid r.id = true <;> simp [updRow, h]

theorem map_updRow_id (tid : Option Nat) (st : TaskStatus) :
    ∀ rs : List TaskRow, (∀ r ∈ rs, sqlIdEq tid r.id = false) →
      rs.map (updRow tid st) = rs
  | [], _ => rfl
  | a :: l, h => by
      rw [List.map_cons, updRow_skip tid st a (h a (List.mem_cons_self a l)),
        map_updRow_id tid st l (fun r hr => h r (List.mem_cons_of_mem a hr))]

/-- A `None` bound under `WHERE id = ?` compares as SQL `NULL` and matches
no row, so the whole update is the identity. -/
theorem updateTaskStatus_none (db : DB) (st : TaskStatus) :
    updateTaskStatus db none st = db := by
  cases db with
  | mk rows nextId =>
      simp only [updateTaskStatus]
      rw [map_updRow_id none st rows (fun r _ => rfl)]

theorem mem_insertKey_self (k : Option Nat) (ks : List (Option Nat)) :
    k ∈ insertKey k ks := by
  unfold insertKey
  split
  · assumption
  · simp

/-- `cancel_task` only ever deletes the dict entry keyed by its integer
argument, so the `None` key survives. -/
theorem none_mem_cancel (s : SchedState) (i : Nat)
    (h : none ∈ s.activeKeys) :
    none ∈ (cancelTask s i).1.activeKeys := by
  unfold cancelTask removeKey
  split
  · exact List.mem_filter.mpr ⟨h, by simp⟩
  · exact h

/-- Whatever branch `_calculate_reminder_time` takes, a successfully
computed time is at least the current time provided the relative offsets
are non-negative and the clock is well-formed. -/
theorem calc_ok_ge (d : CalcData) (c : Clock)
    (hc1 : c.midnight ≤ c.ts) (hc2 : c.ts < c.midnight + 86400)
    (hm : 0 ≤ d.relative_minutes.getD 0) (hh : 0 ≤ d.relative_hours.getD 0)
    (hd : 0 ≤ d.relative_days.getD 0) :
    ∀ t, calcReminderTime d c = .ok t → c.ts ≤ t := by
  intro t ht
  unfold calcReminderTime at ht
  repeat' split at ht
  all_goals try cases ht
  all_goals try simp_all only [Bool.and_eq_true, decide_eq_true_eq]
  all_goals omega

/-- A successful pattern-tier parse has success `True`, confidence exactly
0.6, the fixed reasoning string, and a time computed by
`_calculate_reminder_time` from the extracted data. -/
theorem patternParse_ok_shape (text : List Char) (lang : Lang) (c : Clock) :
    ∀ r, patternParseReminder text lang c = .ok r →
      r.success = true ∧ r.confidence = 3 / 5 ∧
      r.reasoning = strL "Pattern-based parsing" ∧
      calcReminderTime (patternData text lang) c = .ok r.scheduled_time := by
  intro r hr
  simp only [patternParseReminder] at hr
  rcases hcalc : calcReminderTime (patternData text lang) c with e | t <;>
    rw [hcalc] at hr
  · cases hr
  · injection hr with h
    subst h
    exact ⟨rfl, rfl, rfl, rfl⟩

/-- The pattern tier's relative offsets come from regex digit groups and
are therefore non-negative. -/
theorem patternData_nonneg (text : List Char) (lang : Lang) :
    0 ≤ (patternData text lang).relative_minutes.getD 0 ∧
    0 ≤ (patternData text lang).relative_hours.getD 0 ∧
    0 ≤ (patternData text lang).relative_days.getD 0 := by
  refine ⟨?_, ?_, ?_⟩ <;> simp [patternData]

/-- Facts about `_create_fallback_reminder`. -/
theorem fallback_shape (text : List Char) (c : Clock) :
    (fallbackReminder text c).success = true ∧
    c.ts ≤ (fallbackReminder text c).scheduled_time ∧
    0 ≤ (fallbackReminder text c).confidence ∧
    (fallbackReminder text c).confidence ≤ 1 ∧
    (fallbackReminder text c).reasoning ≠ [] := by
  refine ⟨rfl, ?_, ?_, ?_, ?_⟩
  · simp only [fallbackReminder]
    omega
  · norm_num [fallbackReminder]
  · norm_num [fallbackReminder]
  · show strL "Fallback reminder" ≠ []
    decide

/-! ### The claims -/

/-- C1: the spec's exactly-once scenario fails on the code.  For
`schedule_task("Call mom", "", now+300, Reminder)` the saved id is never
written back into the task object, so the deferred timer executes a task
with `id = None`: its status updates match no row and the row stays
Pending, whereupon the next poll cycle re-reads and re-executes it.  The
registered handler fires twice with that task (claim: exactly once); the
persisted status afterwards is indeed Completed. -/
theorem C1_scenario_double_dispatch :
    (scenarioC1timer.2 ++ scenarioC1poll.2).map (fun t => t.title) =
      [strL "Call mom", strL "Call mom"] ∧
    scenarioC1timer.1.rows.map (fun r => (r.id, r.status)) =
      [(1, TaskStatus.pending)] ∧
    scenarioC1poll.1.rows.map (fun r => (r.id, r.status)) =
      [(1, TaskStatus.completed)] := by
  decide

/-- C3 counterexample: a failed durable write does not propagate any
error — `_save_task` catches it and returns the normal value `-1`,
leaving the store unchanged. -/
theorem C3_counterexample :
    saveTask false emptyDB taskC3 = (emptyDB, -1) := by
  decide

/-- C3 amended: on a write failure `_save_task` (and hence
`schedule_task`, which returns its value) silently absorbs the error and
returns `-1` as a normal return value with the store unchanged; no
`StoreError` reaches the caller. -/
theorem C3_write_failure_returns_normally (st : SchedState) (ty : TaskType)
    (title desc : List Char) (sched : Int) (recur : Option (List Char))
    (now : Int) :
    (createTask false st ty title desc sched recur now).2.1 = -1 ∧
    (createTask false st ty title desc sched recur now).1.db = st.db := by
  constructor
  · rfl
  · unfold createTask saveTask dbInsert scheduleTaskExecution
    simp only [Bool.false_eq_true, if_false]
    split <;> rfl

/-- C4 counterexample: on a task whose status is terminal (Completed),
`cancel_task` returns `True` (claim: `False`) and overwrites the terminal
status with Cancelled (claim: leaves it unchanged). -/
theorem C4_counterexample :
    (cancelTask stC4 1).2 = true ∧
    (cancelTask stC4 1).1.db.rows.map (fun r => r.status) =
      [TaskStatus.cancelled] := by
  decide

/-- C4 amended: `cancel_task` never checks the current status: it always
returns `True` and unconditionally sets the row's status to Cancelled,
re-entering terminal states. -/
theorem C4_cancel_ignores_terminal (st : SchedState) (tid : Nat) :
    (cancelTask st tid).2 = true ∧
    ∀ r ∈ (cancelTask st tid).1.db.rows, r.id = tid →
      r.status = TaskStatus.cancelled := by
  refine ⟨rfl, ?_⟩
  intro r hr hid
  simp only [cancelTask, updateTaskStatus, List.mem_map] at hr
  obtain ⟨r0, _, rfl⟩ := hr
  by_cases h : sqlIdEq (some tid) r0.id = true
  · simp [updRow, h]
  · exfalso
    apply h
    simp only [updRow, h, Bool.false_eq_true, if_false] at hid
    simp [sqlIdEq, hid]

/-- C4 witness: concrete instance of the amended claim at the terminal
store `stC4`. -/
theorem C4_witness :
    (cancelTask stC4 1).2 = true ∧ rowC4.status = TaskStatus.cancelled :=
  ⟨(C4_cancel_ignores_terminal stC4 1).1,
   (C4_cancel_ignores_terminal stC4 1).2 rowC4 (by decide) (by decide)⟩

/-- C5: a recurring task that completes spawns exactly the next occurrence:
`_handle_recurrence` persists a fresh Pending row under the store's next id
(distinct from every existing id) with the same
type/title/description/user/recurrence/metadata and the old
`scheduled_time` shifted by 86400 s for daily, 7×86400 for weekly and
30×86400 for monthly recurrence. -/
theorem C5_recurrence_spawns_next (db : DB) (t : ScheduledTask) (now : Int)
    (hwf : (db.rows.all fun r => r.id < db.nextId) = true) :
    db.nextId ∉ db.rows.map TaskRow.id ∧
    (t.recurrence = some (strL "daily") →
      handleRecurrence true db t now =
        ⟨db.rows ++ [nextRowOf db t now 86400], db.nextId + 1⟩) ∧
    (t.recurrence = some (strL "weekly") →
      handleRecurrence true db t now =
        ⟨db.rows ++ [nextRowOf db t now (7 * 86400)], db.nextId + 1⟩) ∧
    (t.recurrence = some (strL "monthly") →
      handleRecurrence true db t now =
        ⟨db.rows ++ [nextRowOf db t now (30 * 86400)], db.nextId + 1⟩) := by
  refine ⟨?_, ?_, ?_, ?_⟩
  · intro hmem
    simp only [List.mem_map] at hmem
    obtain ⟨r, hr, hid⟩ := hmem
    have := List.all_eq_true.mp hwf r hr
    simp only [decide_eq_true_eq] at this
    omega
  · intro h
    have hd : recurrenceDelta t.recurrence = some 86400 := by rw [h]; decide
    simp [handleRecurrence, hd, saveTask, dbInsert, rowOf, nextRowOf]
  · intro h
    have hd : recurrenceDelta t.recurrence = some (7 * 86400) := by
      rw [h]; decide
    simp [handleRecurrence, hd, saveTask, dbInsert, rowOf, nextRowOf]
  · intro h
    have hd : recurrenceDelta t.recurrence = some (30 * 86400) := by
      rw [h]; decide
    simp [handleRecurrence, hd, saveTask, dbInsert, rowOf, nextRowOf]

/-- C5 witness: the daily case at a concrete store and task. -/
theorem C5_witness :
    (emptyDB.rows.all fun r => r.id < emptyDB.nextId) = true ∧
    taskC5.recurrence = some (strL "daily") ∧
    handleRecurrence true emptyDB taskC5 500 =
      ⟨emptyDB.rows ++ [nextRowOf emptyDB taskC5 500 86400],
       emptyDB.nextId + 1⟩ :=
  ⟨by decide, by decide,
   (C5_recurrence_spawns_next emptyDB taskC5 500 (by decide)).2.1 (by decide)⟩

/-- C7 counterexample: `update_status` on an id absent from the store does
not fail — the `UPDATE ... WHERE id = ?` matches nothing, no
`NotFoundError` exists anywhere in the module, and the call returns
normally with the store unchanged. -/
theorem C7_counterexample :
    updateTaskStatus dbC7 (some 5) TaskStatus.completed = dbC7 := by
  decide

/-- C7 amended: for an unknown id `_update_task_status` is a silent no-op
(normal return, store unchanged) rather than a `NotFoundError`; the
idempotence half of the claim holds: updating twice with the same status
equals updating once. -/
theorem C7_update_unknown_silent_noop (db : DB) (tid : Option Nat)
    (st : TaskStatus) :
    ((db.rows.all fun r => !sqlIdEq tid r.id) = true →
      updateTaskStatus db tid st = db) ∧
    updateTaskStatus (updateTaskStatus db tid st) tid st =
      updateTaskStatus db tid st := by
  constructor
  · intro h
    cases db with
    | mk rows nextId =>
        have hall : ∀ r ∈ rows, sqlIdEq tid r.id = false := by
          intro r hr
          have := List.all_eq_true.mp h r hr
          simpa using this
        simp only [updateTaskStatus]
        rw [map_updRow_id tid st rows hall]
  · cases db with
    | mk rows nextId =>
        simp only [updateTaskStatus, List.map_map]
        rw [List.map_congr_left
          (fun r _ => by
            simpa [Function.comp] using updRow_idem tid st r)]

/-- C7 witness: the amended claim at a store with a single row of id 1 and
the unknown id 5. -/
theorem C7_witness :
    (dbC7.rows.all fun r => !sqlIdEq (some 5) r.id) = true ∧
    updateTaskStatus dbC7 (some 5) TaskStatus.active = dbC7 ∧
    updateTaskStatus (updateTaskStatus dbC7 (some 5) TaskStatus.active)
        (some 5) TaskStatus.active =
      updateTaskStatus dbC7 (some 5) TaskStatus.active :=
  ⟨by decide,
   (C7_update_unknown_silent_noop dbC7 (some 5) TaskStatus.active).1
     (by decide),
   (C7_update_unknown_silent_noop dbC7 (some 5) TaskStatus.active).2⟩

/-- C9 counterexample: two consecutive `get_upcoming_tasks` calls with no
intervening writes differ once the clock passes a task's
`scheduled_time` — the query's `scheduled_time >= now` bound is re-read
from the wall clock. -/
theorem C9_counterexample :
    getUpcomingTasks dbC9 100 10 ≠ getUpcomingTasks dbC9 101 10 := by
  decide

/-- C9 amended: two consecutive `get_upcoming_tasks` calls with no
intervening writes return identical ordered lists whenever no stored
task's `scheduled_time` lies in `[t1, t2)` between the two clock readings;
the claim's unconditional idempotence fails because the query's
`scheduled_time >= now` bound re-reads the wall clock (see the
counterexample, where a Pending task due at 100 is returned at `now = 100`
and dropped at `now = 101`). -/
theorem C9_upcoming_clock_sensitive (db : DB) (limit : Nat) (t1 t2 : Int)
    (h12 : t1 ≤ t2)
    (hno : (db.rows.all fun r =>
      !(decide (t1 ≤ r.scheduled_time) &&
        decide (r.scheduled_time < t2))) = true) :
    getUpcomingTasks db t1 limit = getUpcomingTasks db t2 limit := by
  unfold getUpcomingTasks
  refine congrArg (List.map taskOfRow)
    (congrArg (List.take limit)
      (congrArg sortBySched (List.filter_congr fun r hr => ?_)))
  have h := List.all_eq_true.mp hno r hr
  have h2 : r.scheduled_time < t1 ∨ t2 ≤ r.scheduled_time := by
    simpa using h
  congr 1
  simp only [decide_eq_decide]
  omega

/-- C9 witness: two reads at times 200 and 300 of a store whose only task
is due at 100 coincide. -/
theorem C9_witness :
    (200 : Int) ≤ 300 ∧
    (dbC9.rows.all fun r =>
      !(decide ((200 : Int) ≤ r.scheduled_time) &&
        decide (r.scheduled_time < (300 : Int)))) = true ∧
    getUpcomingTasks dbC9 200 10 = getUpcomingTasks dbC9 300 10 :=
  ⟨by decide, by decide,
   C9_upcoming_clock_sensitive dbC9 10 200 300 (by decide) (by decide)⟩

/-- C10: for a future-scheduled task, `_create_task` returns the id the
store generated while the in-memory task object keeps `id = None`; the
deferred timer is therefore registered in `active_tasks` under the key
`None`, the deferred execution path's status updates (`Active`,
`Completed`) target id `None` and change no database row, and
`cancel_task(returned_id)` never finds (so never cancels) that timer. -/
theorem C10_id_never_assigned (st : SchedState) (ty : TaskType)
    (title desc : List Char) (sched : Int) (recur : Option (List Char))
    (now : Int) (h : now < sched) :
    (createTask true st ty title desc sched recur now).2.1 =
      (st.db.nextId : Int) ∧
    (createTask true st ty title desc sched recur now).2.2.id = none ∧
    none ∈ (createTask true st ty title desc sched recur now).1.activeKeys ∧
    updateTaskStatus (createTask true st ty title desc sched recur now).1.db
        none TaskStatus.active =
      (createTask true st ty title desc sched recur now).1.db ∧
    updateTaskStatus (createTask true st ty title desc sched recur now).1.db
        none TaskStatus.completed =
      (createTask true st ty title desc sched recur now).1.db ∧
    none ∈ (cancelTask (createTask true st ty title desc sched recur now).1
        st.db.nextId).1.activeKeys := by
  have hd : (0 : Int) < max 0 (sched - now) := lt_max_of_lt_right (by omega)
  have hkey :
      none ∈ (createTask true st ty title desc sched recur now).1.activeKeys := by
    simp only [createTask, saveTask, dbInsert, scheduleTaskExecution, if_true]
    rw [if_pos hd]
    exact mem_insertKey_self none st.activeKeys
  exact ⟨rfl, rfl, hkey, updateTaskStatus_none _ _, updateTaskStatus_none _ _,
    none_mem_cancel _ _ hkey⟩

/-- C10 witness: the concrete instance at a fresh scheduler,
`now = 50 < 400 = scheduled_time`. -/
theorem C10_witness :
    (50 : Int) < 400 ∧
    ((createTask true emptySched TaskType.timer (strL "tea") (strL "") 400
        none 50).2.1 = (emptySched.db.nextId : Int) ∧
      (createTask true emptySched TaskType.timer (strL "tea") (strL "") 400
        none 50).2.2.id = none ∧
      none ∈ (createTask true emptySched TaskType.timer (strL "tea")
        (strL "") 400 none 50).1.activeKeys ∧
      updateTaskStatus (createTask true emptySched TaskType.timer
          (strL "tea") (strL "") 400 none 50).1.db none TaskStatus.active =
        (createTask true emptySched TaskType.timer (strL "tea") (strL "")
          400 none 50).1.db ∧
      updateTaskStatus (createTask true emptySched TaskType.timer
          (strL "tea") (strL "") 400 none 50).1.db none
          TaskStatus.completed =
        (createTask true emptySched TaskType.timer (strL "tea") (strL "")
          400 none 50).1.db ∧
      none ∈ (cancelTask (createTask true emptySched TaskType.timer
          (strL "tea") (strL "") 400 none 50).1
          emptySched.db.nextId).1.activeKeys) :=
  ⟨by decide,
   C10_id_never_assigned emptySched TaskType.timer (strL "tea") (strL "")
     400 none 50 (by decide)⟩

/-- C2 counterexample: when the AI tier returns a negative relative offset
(`relative_minutes = -5`), `parse_reminder` returns `scheduled_time`
strictly before the call time — the claim's `scheduled_time ≥ call_time`
bound fails. -/
theorem C2_counterexample :
    (parseReminder (.json aiC2) (strL "call mom") .en ⟨1000, 0⟩).scheduled_time
      = 700 ∧
    ¬((1000 : Int) ≤ (parseReminder (.json aiC2) (strL "call mom") .en
      ⟨1000, 0⟩).scheduled_time) := by
  decide

/-- C2 amended: `parse_reminder` always returns a result and never raises
(it is a total function: every internal exception is caught), and
`scheduled_time ≥ call_time` holds for a well-formed clock provided the AI
tier's relative offsets are non-negative — a negative AI offset (see the
counterexample) flows through unchecked. -/
theorem C2_parse_total_guarded (ai : AIOutcome) (text : List Char)
    (lang : Lang) (c : Clock) (hc1 : c.midnight ≤ c.ts)
    (hc2 : c.ts < c.midnight + 86400) (hai : aiOffsetsNonneg ai = true) :
    (parseReminder ai text lang c).success = true ∧
    c.ts ≤ (parseReminder ai text lang c).scheduled_time := by
  cases ai with
  | fail =>
      simp only [parseReminder]
      rcases hp : patternParseReminder text lang c with e | r
      · exact ⟨(fallback_shape text c).1, (fallback_shape text c).2.1⟩
      · have hs := patternParse_ok_shape text lang c r hp
        have hn := patternData_nonneg text lang
        exact ⟨hs.1, calc_ok_ge (patternData text lang) c hc1 hc2 hn.1
          hn.2.1 hn.2.2 r.scheduled_time hs.2.2.2⟩
  | noJson =>
      exact ⟨(fallback_shape text c).1, (fallback_shape text c).2.1⟩
  | json d =>
      simp only [parseReminder, parseAIResponse]
      rcases hcalc : calcReminderTime
          ⟨d.relative_minutes, d.relative_hours, d.relative_days, d.time⟩ c
        with e | t
      · exact ⟨(fallback_shape text c).1, (fallback_shape text c).2.1⟩
      · simp only [aiOffsetsNonneg, Bool.and_eq_true, decide_eq_true_eq]
          at hai
        exact ⟨rfl, calc_ok_ge _ c hc1 hc2 hai.1.1 hai.1.2 hai.2 t hcalc⟩

/-- C2 witness: the amended claim at the pattern tier with a concrete
well-formed clock. -/
theorem C2_witness :
    (0 : Int) ≤ 1000 ∧ (1000 : Int) < 0 + 86400 ∧
    aiOffsetsNonneg AIOutcome.fail = true ∧
    (parseReminder .fail (strL "hi") .en ⟨1000, 0⟩).success = true ∧
    (1000 : Int) ≤
      (parseReminder .fail (strL "hi") .en ⟨1000, 0⟩).scheduled_time :=
  ⟨by decide, by decide, by decide,
   (C2_parse_total_guarded .fail (strL "hi") .en ⟨1000, 0⟩ (by decide)
     (by decide) (by decide)).1,
   (C2_parse_total_guarded .fail (strL "hi") .en ⟨1000, 0⟩ (by decide)
     (by decide) (by decide)).2⟩

/-- C6 counterexample: the AI tier's `confidence` and `reasoning` are
passed through unvalidated — an AI response with `confidence = 2` and an
empty reasoning string yields a result with confidence outside `[0,1]` and
empty reasoning. -/
theorem C6_counterexample :
    (parseReminder (.json aiC6) (strL "t") .en ⟨1000, 0⟩).confidence = 2 ∧
    ¬((parseReminder (.json aiC6) (strL "t") .en ⟨1000, 0⟩).confidence ≤ 1) ∧
    (parseReminder (.json aiC6) (strL "t") .en ⟨1000, 0⟩).reasoning = [] := by
  decide

/-- C6 amended: the pattern and fallback tiers always produce
confidence 0.6 resp. 0.3 with non-empty reasoning, and the defaults for
absent AI fields are 0.5 and "AI parsed reminder"; the contract
`confidence ∈ [0,1] ∧ reasoning ≠ ""` therefore holds whenever the AI
tier's explicit values themselves satisfy it — the code never enforces
it. -/
theorem C6_confidence_reasoning_guarded (ai : AIOutcome) (text : List Char)
    (lang : Lang) (c : Clock) (hai : aiContractOk ai = true) :
    0 ≤ (parseReminder ai text lang c).confidence ∧
    (parseReminder ai text lang c).confidence ≤ 1 ∧
    (parseReminder ai text lang c).reasoning ≠ [] := by
  cases ai with
  | fail =>
      simp only [parseReminder]
      rcases hp : patternParseReminder text lang c with e | r
      · exact ⟨(fallback_shape text c).2.2.1,
          (fallback_shape text c).2.2.2.1, (fallback_shape text c).2.2.2.2⟩
      · have hs := patternParse_ok_shape text lang c r hp
        refine ⟨?_, ?_, ?_⟩
        · rw [hs.2.1]; norm_num
        · rw [hs.2.1]; norm_num
        · rw [hs.2.2.1]; decide
  | noJson =>
      exact ⟨(fallback_shape text c).2.2.1,
        (fallback_shape text c).2.2.2.1, (fallback_shape text c).2.2.2.2⟩
  | json d =>
      simp only [parseReminder, parseAIResponse]
      rcases hcalc : calcReminderTime
          ⟨d.relative_minutes, d.relative_hours, d.relative_days, d.time⟩ c
        with e | t
      · exact ⟨(fallback_shape text c).2.2.1,
          (fallback_shape text c).2.2.2.1, (fallback_shape text c).2.2.2.2⟩
      · simp only [aiContractOk, Bool.and_eq_true] at hai
        refine ⟨?_, ?_, ?_⟩
        · show (0 : ℚ) ≤ d.confidence.getD (1 / 2)
          rcases hq : d.confidence with _ | q
          · norm_num
          · have := hai.1
            rw [hq] at this
            simp only [Bool.and_eq_true, decide_eq_true_eq] at this
            simpa using this.1
        · show d.confidence.getD (1 / 2) ≤ (1 : ℚ)
          rcases hq : d.confidence with _ | q
          · norm_num
          · have := hai.1
            rw [hq] at this
            simp only [Bool.and_eq_true, decide_eq_true_eq] at this
            simpa using this.2
        · show d.reasoning.getD (strL "AI parsed reminder") ≠ []
          rcases hs : d.reasoning with _ | s
          · decide
          · have h2 := hai.2
            rw [hs] at h2
            simp only [Option.getD_some]
            intro hnil
            subst hnil
            simp at h2

/-- C6 witness: the amended claim at the fallback tier. -/
theorem C6_witness :
    aiContractOk AIOutcome.noJson = true ∧
    0 ≤ (parseReminder .noJson (strL "hey") .en ⟨500, 0⟩).confidence ∧
    (parseReminder .noJson (strL "hey") .en ⟨500, 0⟩).confidence ≤ 1 ∧
    (parseReminder .noJson (strL "hey") .en ⟨500, 0⟩).reasoning ≠ [] :=
  ⟨by decide,
   (C6_confidence_reasoning_guarded .noJson (strL "hey") .en ⟨500, 0⟩
     (by decide)).1,
   (C6_confidence_reasoning_guarded .noJson (strL "hey") .en ⟨500, 0⟩
     (by decide)).2.1,
   (C6_confidence_reasoning_guarded .noJson (strL "hey") .en ⟨500, 0⟩
     (by decide)).2.2⟩

/-- C8: with the AI tier unavailable, the deterministic pattern tier parses
`"remind me in 5 minutes about X"` (English) to `relative_minutes = 5`
with a message containing `X` and confidence 0.6 ≥ 0.6, at every call
time. -/
theorem C8_pattern_parse_five_minutes (c : Clock) :
    (parseReminder .fail (strL "remind me in 5 minutes about X") .en
      c).relative_minutes = 5 ∧
    'X' ∈ (parseReminder .fail (strL "remind me in 5 minutes about X") .en
      c).message ∧
    (3 : ℚ) / 5 ≤ (parseReminder .fail (strL "remind me in 5 minutes about X")
      .en c).confidence := by
  have h2 : (parseReminder .fail (strL "remind me in 5 minutes about X") .en
      c).message = strL "me in s about X" := rfl
  have h3 : (parseReminder .fail (strL "remind me in 5 minutes about X") .en
      c).confidence = 3 / 5 := rfl
  refine ⟨rfl, ?_, ?_⟩
  · rw [h2]; decide
  · rw [h3]

end ShadowAI
